import Mathlib

/-!
Verification of the cross-chain arbitrage bot core against its
natural-language specification.

The development shallowly embeds the Python sources:
* `app/utils/blockchain_interface.py` — `execute_arbitrage`,
  `execute_dex_trade`, `bridge_assets`;
* `app/utils/arbitrage_finder.py` — `ArbitrageOpportunity`,
  `validate_opportunity`, `find_opportunities`, `monitor_opportunities`;
* `app/utils/ai_strategy.py` — `analyze_opportunity`,
  `_calculate_risk_score`, `_analyze_text_sentiment`;
* `app/utils/price_fetcher.py` — `fetch_all_prices`;
* `app/components/dashboard.py` — `execute_opportunity`.

Python floats are modelled as rationals (`ℚ`); awaited network calls that
may raise are modelled as oracle parameters returning `Except String`,
so each theorem quantifies over every possible outcome of the external
calls.  Fallible AI/advisory calls that the source coerces to `None`
are modelled as `Option` values.
-/

/-- Result dict of `AIStrategy.analyze_opportunity`
(`ai_strategy.py` lines 38–44).  The `timestamp` field
(`datetime.now().isoformat()`) is wall-clock input and is not modelled. -/
structure AIAnalysis where
  analysis : String
  risk_score : ℚ
  recommendation : String
  confidence : ℚ
deriving DecidableEq

/-- The `ArbitrageOpportunity` dataclass of `arbitrage_finder.py`
lines 8–21.  Dict-valued fields (`execution_path` steps, `gas_costs`)
are modelled as association lists. -/
structure ArbitrageOpportunity where
  source_chain : String
  source_dex : String
  target_chain : String
  target_dex : String
  token_pair : String × String
  profit_percentage : ℚ
  estimated_profit_usd : ℚ
  required_capital : ℚ
  execution_path : List (List (String × String))
  gas_costs : List (String × ℚ)
  timestamp : ℚ
  ai_analysis : Option AIAnalysis := none
deriving DecidableEq

/-- Transaction dicts returned by the two leg executors of
`blockchain_interface.py`: `execute_dex_trade` (lines 104–111) returns
the `trade` shape, `bridge_assets` (lines 118–125) the `bridged` shape. -/
inductive Tx where
  | trade (chain dex action : String) (amount received_amount : ℚ)
      (tx_hash : String)
  | bridged (from_chain to_chain token : String)
      (amount received_amount : ℚ) (tx_hash : String)
deriving DecidableEq

/-- The `amount` key common to both transaction dict shapes. -/
def Tx.amount : Tx → ℚ
  | .trade _ _ _ a _ _ => a
  | .bridged _ _ _ a _ _ => a

/-- The `received_amount` key common to both transaction dict shapes. -/
def Tx.received_amount : Tx → ℚ
  | .trade _ _ _ _ r _ => r
  | .bridged _ _ _ _ r _ => r

/-- The result dict built by `execute_arbitrage`
(`blockchain_interface.py` lines 53–57). -/
structure ExecResult where
  success : Bool
  transactions : List Tx
  errors : List String
deriving DecidableEq

/-- One awaited leg submission made by `execute_arbitrage`: either a call
of `execute_dex_trade` or a call of `bridge_assets`, with the arguments
passed at the call site. -/
inductive LegCall where
  | dex (chain dex action : String) (amount : ℚ) (pair : String × String)
  | bridgeCall (from_chain to_chain token : String) (amount : ℚ)
deriving DecidableEq

/-- The three leg kinds of an execution plan (spec §4.3). -/
inductive LegKind where
  | acquire
  | bridge
  | dispose
deriving DecidableEq

/-- Which plan leg a call realises: a `"buy"` DEX trade is the acquire
leg, any other DEX trade is the dispose leg, a bridge call the bridge
leg. -/
def LegCall.kind : LegCall → LegKind
  | .dex _ _ action _ _ => if action = "buy" then .acquire else .dispose
  | .bridgeCall _ _ _ _ => .bridge

/-- Oracle for the two awaited leg primitives of `BlockchainInterface`.
In the source both are placeholder coroutines; an awaited call may
either return a transaction dict or raise, which `Except String Tx`
captures. -/
structure LegOracle where
  execute_dex_trade :
    String → String → String → ℚ → String × String → Except String Tx
  bridge_assets : String → String → String → ℚ → Except String Tx

/-- Replay of the oracle on a recorded call. -/
def LegOracle.run (O : LegOracle) : LegCall → Except String Tx
  | .dex chain dex action amount pair =>
      O.execute_dex_trade chain dex action amount pair
  | .bridgeCall from_chain to_chain token amount =>
      O.bridge_assets from_chain to_chain token amount

/-- `BlockchainInterface.execute_arbitrage`
(`blockchain_interface.py` lines 51–95), instrumented with the list of
leg calls it submits, in order.  The Python `try` block appends each
transaction as it completes; the first raising leg jumps to the
`except` handler, which appends `str(e)` to `errors` and leaves
`success` as `False`; `success` is set to `True` only after the last
leg.  The guard `'bridge_tx' in locals()` on line 85 is true exactly
when the cross-chain branch ran and its bridge call returned. -/
def execute_arbitrage_traced (O : LegOracle) (opportunity : ArbitrageOpportunity) :
    ExecResult × List LegCall :=
  let buyCall := LegCall.dex opportunity.source_chain opportunity.source_dex
    "buy" opportunity.required_capital opportunity.token_pair
  match O.execute_dex_trade opportunity.source_chain opportunity.source_dex
      "buy" opportunity.required_capital opportunity.token_pair with
  | .error e => (⟨false, [], [e]⟩, [buyCall])
  | .ok buy_tx =>
    if opportunity.source_chain ≠ opportunity.target_chain then
      let brCall := LegCall.bridgeCall opportunity.source_chain
        opportunity.target_chain opportunity.token_pair.1
        buy_tx.received_amount
      match O.bridge_assets opportunity.source_chain
          opportunity.target_chain opportunity.token_pair.1
          buy_tx.received_amount with
      | .error e => (⟨false, [buy_tx], [e]⟩, [buyCall, brCall])
      | .ok bridge_tx =>
        let sellCall := LegCall.dex opportunity.target_chain
          opportunity.target_dex "sell" bridge_tx.received_amount
          opportunity.token_pair
        match O.execute_dex_trade opportunity.target_chain
            opportunity.target_dex "sell" bridge_tx.received_amount
            opportunity.token_pair with
        | .error e =>
            (⟨false, [buy_tx, bridge_tx], [e]⟩, [buyCall, brCall, sellCall])
        | .ok sell_tx =>
            (⟨true, [buy_tx, bridge_tx, sell_tx], []⟩,
             [buyCall, brCall, sellCall])
    else
      let sellCall := LegCall.dex opportunity.target_chain
        opportunity.target_dex "sell" buy_tx.received_amount
        opportunity.token_pair
      match O.execute_dex_trade opportunity.target_chain
          opportunity.target_dex "sell" buy_tx.received_amount
          opportunity.token_pair with
      | .error e => (⟨false, [buy_tx], [e]⟩, [buyCall, sellCall])
      | .ok sell_tx => (⟨true, [buy_tx, sell_tx], []⟩, [buyCall, sellCall])

/-- The observable result of `execute_arbitrage` (its returned dict). -/
def execute_arbitrage (O : LegOracle) (opportunity : ArbitrageOpportunity) :
    ExecResult :=
  (execute_arbitrage_traced O opportunity).1

/-- The plan of an opportunity (spec §3): acquire, bridge when the
trade is cross-chain, dispose — the condition `execute_arbitrage`
tests on line 71. -/
def planned_legs (opportunity : ArbitrageOpportunity) : List LegKind :=
  [.acquire]
    ++ (if opportunity.source_chain ≠ opportunity.target_chain
        then [.bridge] else [])
    ++ [.dispose]

/-- `BlockchainInterface.execute_dex_trade`
(`blockchain_interface.py` lines 97–111): the placeholder returns the
requested amount with 1% simulated slippage. -/
def execute_dex_trade (chain dex action : String) (amount : ℚ)
    (_token_pair : String × String) : Tx :=
  .trade chain dex action amount (amount * (99 / 100)) "0x..."

/-- `BlockchainInterface.bridge_assets`
(`blockchain_interface.py` lines 113–125): the placeholder returns the
requested amount with a 0.5% simulated bridge fee. -/
def bridge_assets (from_chain to_chain token : String) (amount : ℚ) : Tx :=
  .bridged from_chain to_chain token amount (amount * (995 / 1000)) "0x..."

/-- The oracle realised by the source's own placeholder legs, which
always return. -/
def defaultOracle : LegOracle where
  execute_dex_trade := fun chain dex action amount pair =>
    .ok (execute_dex_trade chain dex action amount pair)
  bridge_assets := fun from_chain to_chain token amount =>
    .ok (bridge_assets from_chain to_chain token amount)


/-- Responses of the external AI/advisory service for one opportunity,
the boundary the design abstracts (spec §9): the chat completion of
`analyze_opportunity`, the completion of `_analyze_text_sentiment`
(its parsed score, or an error covering both a raised call and a failed
float parse, which the bare `except` treats alike), the parsed results
of `optimize_execution_path`, `predict_price_movement` and
`analyze_market_sentiment` (each `None` when the call raised or the
parser yielded nothing). -/
structure AIEnv where
  chat_response : Except String String
  sentiment_response : Except String ℚ
  optimize_response : Option (List (List (String × String)))
  price_prediction : Option (List (String × String))
  market_sentiment : Option (List (String × ℚ))

/-- `AIStrategy._analyze_text_sentiment` (`ai_strategy.py` lines
158–172): a parsed score `s` is rescaled to `(s + 1) / 2`; any failure
returns the default neutral sentiment 0.5. -/
def analyze_text_sentiment (env : AIEnv) (_text : String) : ℚ :=
  match env.sentiment_response with
  | .ok s => (s + 1) / 2
  | .error _ => 1 / 2

/-- `AIStrategy._calculate_risk_score` (`ai_strategy.py` lines
142–156). -/
def calculate_risk_score (env : AIEnv) (analysis : String)
    (opportunity_data : ArbitrageOpportunity) : ℚ :=
  let base_score : ℚ := 1 / 2
  let profit_score := min (opportunity_data.profit_percentage / 10) (3 / 10)
  let capital_risk :=
    max 0 (1 / 5 - opportunity_data.required_capital / 100000)
  let sentiment_score := analyze_text_sentiment env analysis
  min (base_score + profit_score + capital_risk + sentiment_score) 1

/-- The `confidence_threshold` set in `AIStrategy.__init__`. -/
def confidence_threshold : ℚ := 85 / 100

/-- `AIStrategy.analyze_opportunity` (`ai_strategy.py` lines 19–48):
a raising chat call is caught and the function returns `None`;
otherwise the analysis text is scored and the recommendation is
`"execute"` exactly when the risk score reaches the confidence
threshold.  The wall-clock `timestamp` field is not modelled. -/
def analyze_opportunity (env : AIEnv)
    (opportunity_data : ArbitrageOpportunity) : Option AIAnalysis :=
  match env.chat_response with
  | .error _ => none
  | .ok analysis =>
    let risk_score := calculate_risk_score env analysis opportunity_data
    some { analysis := analysis, risk_score := risk_score,
           recommendation :=
             if risk_score ≥ confidence_threshold then "execute"
             else "skip",
           confidence := risk_score }

/-- The `ArbitrageFinder` configuration (`arbitrage_finder.py` lines
24–28). -/
structure ArbitrageFinder where
  min_profit_threshold : ℚ
  max_gas_usage : ℕ
  slippage_tolerance : ℚ

/-- The values `ArbitrageFinder.__init__` assigns. -/
def ArbitrageFinder.init : ArbitrageFinder :=
  { min_profit_threshold := 1 / 2, max_gas_usage := 500000,
    slippage_tolerance := 5 / 1000 }

/-- `ArbitrageFinder.find_opportunities` (`arbitrage_finder.py` lines
30–59), over the raw opportunities the placeholder scanner yields: an
opportunity is kept only when the AI analysis returned and recommends
`"execute"`; a truthy optimized path replaces the execution path; the
analysis is attached to the kept opportunity. -/
def find_opportunities (env : AIEnv)
    (raw_opportunities : List ArbitrageOpportunity) :
    List ArbitrageOpportunity :=
  raw_opportunities.filterMap fun opp =>
    match analyze_opportunity env opp with
    | none => none
    | some a =>
      if a.recommendation = "execute" then
        let path :=
          match env.optimize_response with
          | some p => if p.isEmpty then opp.execution_path else p
          | none => opp.execution_path
        some { opp with execution_path := path, ai_analysis := some a }
      else none

/-- The sum over `opportunity.gas_costs.values()` on line 93 of
`arbitrage_finder.py`. -/
def sum_gas (opportunity : ArbitrageOpportunity) : ℚ :=
  (opportunity.gas_costs.map Prod.snd).sum

/-- The check `price_prediction and price_prediction.get('direction')
== 'down'` of `validate_opportunity` (line 105): a `None` or empty
(falsy) prediction dict never rejects. -/
def prediction_down (env : AIEnv) : Bool :=
  match env.price_prediction with
  | some p =>
      if p.isEmpty then false else decide (p.lookup "direction" = some "down")
  | none => false

/-- The check `sentiment and sentiment.get('score', 0) < 0.5` of
`validate_opportunity` (line 112): a `None` or empty (falsy) sentiment
dict never rejects; a present dict without a `score` key defaults the
score to 0 and rejects. -/
def sentiment_low (env : AIEnv) : Bool :=
  match env.market_sentiment with
  | some s =>
      if s.isEmpty then false else decide ((s.lookup "score").getD 0 < 1 / 2)
  | none => false

/-- `ArbitrageFinder.validate_opportunity` (`arbitrage_finder.py` lines
87–115). -/
def validate_opportunity (self : ArbitrageFinder) (env : AIEnv)
    (opportunity : ArbitrageOpportunity) : Bool :=
  if opportunity.profit_percentage < self.min_profit_threshold then false
  else if sum_gas opportunity > opportunity.estimated_profit_usd then false
  else
    match opportunity.ai_analysis with
    | none => true
    | some a =>
      if a.risk_score < 7 / 10 then false
      else if prediction_down env then false
      else if sentiment_low env then false
      else true

/-- One cycle of `ArbitrageFinder.monitor_opportunities`
(`arbitrage_finder.py` lines 153–160): the list of opportunities the
cycle passes to the callback, namely the found opportunities that
validate. -/
def monitor_opportunities (self : ArbitrageFinder) (env : AIEnv)
    (raw_opportunities : List ArbitrageOpportunity) :
    List ArbitrageOpportunity :=
  (find_opportunities env raw_opportunities).filter fun opp =>
    validate_opportunity self env opp
/-- The sample opportunity built by
`ArbitrageFinder._find_raw_opportunities` (`arbitrage_finder.py` lines
61–85).  Its `datetime.now()` timestamp is modelled as 0. -/
def sample_opportunity : ArbitrageOpportunity :=
  { source_chain := "ethereum", source_dex := "uniswap",
    target_chain := "polygon", target_dex := "quickswap",
    token_pair := ("WETH", "USDT"), profit_percentage := 6 / 5,
    estimated_profit_usd := 150, required_capital := 10000,
    execution_path :=
      [[("action", "buy"), ("chain", "ethereum"), ("dex", "uniswap")],
       [("action", "bridge"), ("from_chain", "ethereum"),
        ("to_chain", "polygon")],
       [("action", "sell"), ("chain", "polygon"), ("dex", "quickswap")]],
    gas_costs := [("ethereum", 5 / 100), ("polygon", 1 / 1000)],
    timestamp := 0 }

/-- The `supported_dexes` table of `PriceFetcher.__init__`
(`price_fetcher.py` lines 9–14). -/
def supported_dexes : List (String × List String) :=
  [("ethereum", ["uniswap", "sushiswap"]), ("bsc", ["pancakeswap"]),
   ("polygon", ["quickswap"]), ("avalanche", ["traderjoe"])]

/-- The (chain, dex) pairs in the order the two nested loops of
`fetch_all_prices` walk them. -/
def all_chain_dex_pairs : List (String × String) :=
  supported_dexes.flatMap fun cd => cd.2.map fun d => (cd.1, d)

/-- `PriceFetcher.fetch_all_prices` (`price_fetcher.py` lines 41–59),
over an oracle for the awaited `get_dex_price` calls (each may return a
price or raise).  `asyncio.gather(..., return_exceptions=True)` yields
one result per task in task order; the second loop walks the same
(chain, dex) order and keeps `prices[f"{chain}_{dex}"] = results[idx]`
exactly when `results[idx]` is not an exception, so the dict holds one
entry per pair whose fetch call did not raise. -/
def fetch_all_prices
    (get_dex_price : String → String × String → Except String ℚ)
    (token_pair : String × String) : List (String × ℚ) :=
  all_chain_dex_pairs.filterMap fun cd =>
    match get_dex_price cd.2 token_pair with
    | .ok p => some (cd.1 ++ "_" ++ cd.2, p)
    | .error _ => none

/-- `execute_opportunity` of `app/components/dashboard.py` (lines
132–138): its whole effect on the registry state is
`st.session_state.active_trades.append(opportunity)` — it checks
nothing before appending and has no rejection path. -/
def execute_opportunity (active_trades : List ArbitrageOpportunity)
    (opportunity : ArbitrageOpportunity) : List ArbitrageOpportunity :=
  active_trades ++ [opportunity]

/-- The configured maximum capital per trade: the "Maximum Trade Size
(USD)" setting of `app/components/trade_executor.py` (lines 96–103),
default value 10000. -/
def max_trade_size : ℚ := 10000

/-- An advisory environment in which every external AI call raised
(timeout), the failure mode of spec §7. -/
def failing_ai_env : AIEnv :=
  { chat_response := .error "Request timed out",
    sentiment_response := .error "Request timed out",
    optimize_response := none, price_prediction := none,
    market_sentiment := none }

/-- An advisory environment whose chat call returned and whose
sentiment completion parsed to the out-of-range score −5 (the prompt
asks for a score in [−1, 1] but nothing enforces the reply's range). -/
def out_of_range_ai_env : AIEnv :=
  { chat_response := .ok "detailed analysis",
    sentiment_response := .ok (-5),
    optimize_response := none, price_prediction := none,
    market_sentiment := none }
example :
    (execute_arbitrage defaultOracle
      { source_chain := "ethereum", source_dex := "uniswap",
        target_chain := "polygon", target_dex := "quickswap",
        token_pair := ("WETH", "USDT"), profit_percentage := 6/5,
        estimated_profit_usd := 150, required_capital := 1000,
        execution_path := [], gas_costs := [], timestamp := 0 }).success
    = true := by decide

/-- C1: in `execute_arbitrage`, the submitted legs always follow the plan
in order (the call kinds are a prefix of the plan); every leg before the
last one returned; when the result is a failure, the last submitted leg
is the one that raised, and its raw error is the result's whole error
list; success is reported only when every planned leg was submitted and
returned. -/
theorem execute_arbitrage_leg_failure_stops (O : LegOracle)
    (opportunity : ArbitrageOpportunity) :
    (∃ rest, ((execute_arbitrage_traced O opportunity).2.map LegCall.kind)
        ++ rest = planned_legs opportunity) ∧
    (∀ c ∈ (execute_arbitrage_traced O opportunity).2.dropLast,
        ∃ tx, O.run c = .ok tx) ∧
    ((execute_arbitrage_traced O opportunity).1.success = false →
      ∃ c e, (execute_arbitrage_traced O opportunity).2.getLast? = some c
        ∧ O.run c = .error e
        ∧ (execute_arbitrage_traced O opportunity).1.errors = [e]) ∧
    ((execute_arbitrage_traced O opportunity).1.success = true →
      ((execute_arbitrage_traced O opportunity).2.map LegCall.kind
          = planned_legs opportunity
        ∧ ∀ c ∈ (execute_arbitrage_traced O opportunity).2,
            ∃ tx, O.run c = .ok tx)) := by
  by_cases hchain : opportunity.source_chain ≠ opportunity.target_chain
  · cases hbuy : O.execute_dex_trade opportunity.source_chain
        opportunity.source_dex "buy" opportunity.required_capital
        opportunity.token_pair with
    | error e =>
        simp [execute_arbitrage_traced, hbuy, hchain, planned_legs,
          LegOracle.run, LegCall.kind]
    | ok buy_tx =>
        cases hbr : O.bridge_assets opportunity.source_chain
            opportunity.target_chain opportunity.token_pair.1
            buy_tx.received_amount with
        | error e =>
            simp [execute_arbitrage_traced, hbuy, hbr, hchain, planned_legs,
              LegOracle.run, LegCall.kind]
        | ok bridge_tx =>
            cases hsell : O.execute_dex_trade opportunity.target_chain
                opportunity.target_dex "sell" bridge_tx.received_amount
                opportunity.token_pair with
            | error e =>
                simp [execute_arbitrage_traced, hbuy, hbr, hsell, hchain,
                  planned_legs, LegOracle.run, LegCall.kind]
            | ok sell_tx =>
                simp [execute_arbitrage_traced, hbuy, hbr, hsell, hchain,
                  planned_legs, LegOracle.run, LegCall.kind]
  · cases hbuy : O.execute_dex_trade opportunity.source_chain
        opportunity.source_dex "buy" opportunity.required_capital
        opportunity.token_pair with
    | error e =>
        simp [execute_arbitrage_traced, hbuy, hchain, planned_legs,
          LegOracle.run, LegCall.kind]
    | ok buy_tx =>
        cases hsell : O.execute_dex_trade opportunity.target_chain
            opportunity.target_dex "sell" buy_tx.received_amount
            opportunity.token_pair with
        | error e =>
            simp [execute_arbitrage_traced, hbuy, hsell, hchain,
              planned_legs, LegOracle.run, LegCall.kind]
        | ok sell_tx =>
            simp [execute_arbitrage_traced, hbuy, hsell, hchain,
              planned_legs, LegOracle.run, LegCall.kind]

/-- C10: `execute_arbitrage` returns a result dict for every outcome of
its leg calls (it is a total function of the oracle), and the success
flag is set exactly when the error list is empty. -/
theorem execute_arbitrage_success_iff_no_errors (O : LegOracle)
    (opportunity : ArbitrageOpportunity) :
    (execute_arbitrage O opportunity).success = true
      ↔ (execute_arbitrage O opportunity).errors = [] := by
  by_cases hchain : opportunity.source_chain ≠ opportunity.target_chain
  · cases hbuy : O.execute_dex_trade opportunity.source_chain
        opportunity.source_dex "buy" opportunity.required_capital
        opportunity.token_pair with
    | error e =>
        simp [execute_arbitrage, execute_arbitrage_traced, hbuy, hchain]
    | ok buy_tx =>
        cases hbr : O.bridge_assets opportunity.source_chain
            opportunity.target_chain opportunity.token_pair.1
            buy_tx.received_amount with
        | error e =>
            simp [execute_arbitrage, execute_arbitrage_traced, hbuy, hbr,
              hchain]
        | ok bridge_tx =>
            cases hsell : O.execute_dex_trade opportunity.target_chain
                opportunity.target_dex "sell" bridge_tx.received_amount
                opportunity.token_pair with
            | error e =>
                simp [execute_arbitrage, execute_arbitrage_traced, hbuy,
                  hbr, hsell, hchain]
            | ok sell_tx =>
                simp [execute_arbitrage, execute_arbitrage_traced, hbuy,
                  hbr, hsell, hchain]
  · cases hbuy : O.execute_dex_trade opportunity.source_chain
        opportunity.source_dex "buy" opportunity.required_capital
        opportunity.token_pair with
    | error e =>
        simp [execute_arbitrage, execute_arbitrage_traced, hbuy, hchain]
    | ok buy_tx =>
        cases hsell : O.execute_dex_trade opportunity.target_chain
            opportunity.target_dex "sell" buy_tx.received_amount
            opportunity.token_pair with
        | error e =>
            simp [execute_arbitrage, execute_arbitrage_traced, hbuy, hsell,
              hchain]
        | ok sell_tx =>
            simp [execute_arbitrage, execute_arbitrage_traced, hbuy, hsell,
              hchain]

/-- C3: on the source's own legs (the `defaultOracle` placeholders), a
cross-chain execution with non-negative capital completes with the three
transactions acquire, bridge, dispose; the acquire leg is submitted at
the required capital, the bridge leg transfers exactly the acquire leg's
received amount, the dispose leg sells exactly the bridge leg's received
amount, and received amounts never increase from one leg to the next. -/
theorem execute_arbitrage_amounts_chain (opportunity : ArbitrageOpportunity)
    (hcap : 0 ≤ opportunity.required_capital)
    (hchain : opportunity.source_chain ≠ opportunity.target_chain) :
    ∃ t0 t1 t2,
      (execute_arbitrage defaultOracle opportunity).transactions
          = [t0, t1, t2]
        ∧ (execute_arbitrage defaultOracle opportunity).success = true
        ∧ t0.amount = opportunity.required_capital
        ∧ t1.amount = t0.received_amount
        ∧ t2.amount = t1.received_amount
        ∧ t1.received_amount ≤ t0.received_amount
        ∧ t2.received_amount ≤ t1.received_amount := by
  have h0 : (0 : ℚ) ≤ opportunity.required_capital * (99 / 100) := by
    have : (0 : ℚ) ≤ 99 / 100 := by norm_num
    exact mul_nonneg hcap this
  have h1 : (0 : ℚ)
      ≤ opportunity.required_capital * (99 / 100) * (995 / 1000) := by
    have : (0 : ℚ) ≤ 995 / 1000 := by norm_num
    exact mul_nonneg h0 this
  refine ⟨execute_dex_trade opportunity.source_chain opportunity.source_dex
      "buy" opportunity.required_capital opportunity.token_pair,
    bridge_assets opportunity.source_chain opportunity.target_chain
      opportunity.token_pair.1 (opportunity.required_capital * (99 / 100)),
    execute_dex_trade opportunity.target_chain opportunity.target_dex
      "sell" (opportunity.required_capital * (99 / 100) * (995 / 1000))
      opportunity.token_pair, ?_, ?_, ?_, ?_, ?_, ?_, ?_⟩
  · simp [execute_arbitrage, execute_arbitrage_traced, defaultOracle,
      hchain, execute_dex_trade, bridge_assets, Tx.received_amount]
  · simp [execute_arbitrage, execute_arbitrage_traced, defaultOracle,
      hchain, execute_dex_trade, bridge_assets, Tx.received_amount]
  · simp [execute_dex_trade, Tx.amount]
  · simp [execute_dex_trade, bridge_assets, Tx.amount, Tx.received_amount]
  · simp [execute_dex_trade, bridge_assets, Tx.amount, Tx.received_amount]
  · simp only [execute_dex_trade, bridge_assets, Tx.received_amount]
    calc opportunity.required_capital * (99 / 100) * (995 / 1000)
        ≤ opportunity.required_capital * (99 / 100) * 1 := by
          exact mul_le_mul_of_nonneg_left (by norm_num) h0
      _ = opportunity.required_capital * (99 / 100) := by ring
  · simp only [execute_dex_trade, bridge_assets, Tx.received_amount]
    calc opportunity.required_capital * (99 / 100) * (995 / 1000) * (99 / 100)
        ≤ opportunity.required_capital * (99 / 100) * (995 / 1000) * 1 := by
          exact mul_le_mul_of_nonneg_left (by norm_num) h1
      _ = opportunity.required_capital * (99 / 100) * (995 / 1000) := by ring

/-- Witness for C3: the amount chain at the sample cross-chain
opportunity of `_find_raw_opportunities` with capital 10000. -/
theorem execute_arbitrage_amounts_chain_witness :
    ∃ t0 t1 t2,
      (execute_arbitrage defaultOracle
        { source_chain := "ethereum", source_dex := "uniswap",
          target_chain := "polygon", target_dex := "quickswap",
          token_pair := ("WETH", "USDT"), profit_percentage := 6/5,
          estimated_profit_usd := 150, required_capital := 10000,
          execution_path := [], gas_costs := [], timestamp := 0 }).transactions
          = [t0, t1, t2]
        ∧ (execute_arbitrage defaultOracle
            { source_chain := "ethereum", source_dex := "uniswap",
              target_chain := "polygon", target_dex := "quickswap",
              token_pair := ("WETH", "USDT"), profit_percentage := 6/5,
              estimated_profit_usd := 150, required_capital := 10000,
              execution_path := [], gas_costs := [], timestamp := 0 }).success
          = true
        ∧ t0.amount = 10000
        ∧ t1.amount = t0.received_amount
        ∧ t2.amount = t1.received_amount
        ∧ t1.received_amount ≤ t0.received_amount
        ∧ t2.received_amount ≤ t1.received_amount :=
  execute_arbitrage_amounts_chain
    { source_chain := "ethereum", source_dex := "uniswap",
      target_chain := "polygon", target_dex := "quickswap",
      token_pair := ("WETH", "USDT"), profit_percentage := 6/5,
      estimated_profit_usd := 150, required_capital := 10000,
      execution_path := [], gas_costs := [], timestamp := 0 }
    (by norm_num) (by decide)
example :
    (monitor_opportunities ArbitrageFinder.init
      { chat_response := .ok "analysis", sentiment_response := .ok 1,
        optimize_response := none, price_prediction := none,
        market_sentiment := none }
      [sample_opportunity]).length = 1 := by
  norm_num [monitor_opportunities, find_opportunities, analyze_opportunity,
    calculate_risk_score, analyze_text_sentiment, confidence_threshold,
    validate_opportunity, sum_gas, prediction_down, sentiment_low,
    sample_opportunity, ArbitrageFinder.init, min_def, max_def,
    List.filterMap_cons, List.filter_cons]

/-- C4: an opportunity whose profit percentage is strictly below the
finder's minimum profit threshold never validates, a monitoring cycle
passes only validating opportunities to the callback, and hence every
opportunity a cycle emits has profit percentage at least the
threshold. -/
theorem monitor_never_emits_below_threshold (self : ArbitrageFinder)
    (env : AIEnv) (raw_opportunities : List ArbitrageOpportunity) :
    (∀ opp : ArbitrageOpportunity,
        opp.profit_percentage < self.min_profit_threshold →
        validate_opportunity self env opp = false) ∧
    (∀ opp ∈ monitor_opportunities self env raw_opportunities,
        validate_opportunity self env opp = true) ∧
    (∀ opp ∈ monitor_opportunities self env raw_opportunities,
        self.min_profit_threshold ≤ opp.profit_percentage) := by
  refine ⟨fun opp h => by simp [validate_opportunity, h],
    fun opp h => (List.mem_filter.mp h).2, fun opp h => ?_⟩
  have hv := (List.mem_filter.mp h).2
  by_contra hle
  push_neg at hle
  simp [validate_opportunity, hle] at hv

/-- C5: when the advisory chat call raised, `analyze_opportunity`
returns `None` instead of crashing, no opportunity is recommended for
execution — `find_opportunities` emits nothing — and the sentiment
sub-call maps its own failure to the default neutral score 0.5. -/
theorem advisory_failure_never_accepts (env : AIEnv) (e : String)
    (opportunity : ArbitrageOpportunity)
    (raw_opportunities : List ArbitrageOpportunity)
    (h : env.chat_response = .error e) :
    analyze_opportunity env opportunity = none ∧
    find_opportunities env raw_opportunities = [] ∧
    (∀ msg text, env.sentiment_response = .error msg →
      analyze_text_sentiment env text = 1 / 2) := by
  refine ⟨by simp [analyze_opportunity, h], ?_, ?_⟩
  · simp [find_opportunities, analyze_opportunity, h]
  · intro msg text hmsg
    simp [analyze_text_sentiment, hmsg]

/-- Witness for C5 at the all-timeouts advisory environment and the
scanner's sample opportunity. -/
theorem advisory_failure_never_accepts_witness :
    analyze_opportunity failing_ai_env sample_opportunity = none ∧
    find_opportunities failing_ai_env [sample_opportunity] = [] ∧
    (∀ msg text, failing_ai_env.sentiment_response = .error msg →
      analyze_text_sentiment failing_ai_env text = 1 / 2) :=
  advisory_failure_never_accepts failing_ai_env "Request timed out"
    sample_opportunity [sample_opportunity] rfl

/-- C6: `validate_opportunity` returns false whenever the summed gas
costs exceed the estimated profit, and the gas gate does not reject
when the sum is at most the estimated profit: with the profit gate
passing and no attached analysis, validation returns true. -/
theorem validate_gas_gate (self : ArbitrageFinder) (env : AIEnv)
    (opportunity : ArbitrageOpportunity) :
    (sum_gas opportunity > opportunity.estimated_profit_usd →
      validate_opportunity self env opportunity = false) ∧
    (sum_gas opportunity ≤ opportunity.estimated_profit_usd →
      self.min_profit_threshold ≤ opportunity.profit_percentage →
      opportunity.ai_analysis = none →
      validate_opportunity self env opportunity = true) := by
  constructor
  · intro hgas
    by_cases hp : opportunity.profit_percentage < self.min_profit_threshold
    · simp [validate_opportunity, hp]
    · simp [validate_opportunity, hp, hgas]
  · intro hgas hp hai
    simp [validate_opportunity, not_lt.mpr hp, not_lt.mpr hgas, hai]

/-- C7 counterexample: an opportunity requiring 1,000,000 USD of
capital — a hundred times the configured maximum trade size — still
validates as executable. -/
theorem validate_no_capital_gate_counterexample :
    max_trade_size
        < ({ sample_opportunity with required_capital := 1000000 }
            : ArbitrageOpportunity).required_capital ∧
    validate_opportunity ArbitrageFinder.init failing_ai_env
        { sample_opportunity with required_capital := 1000000 } = true := by
  constructor
  · norm_num [max_trade_size, sample_opportunity]
  · norm_num [validate_opportunity, sample_opportunity,
      ArbitrageFinder.init, sum_gas]

/-- C7 amended: `validate_opportunity` never reads the required
capital — its verdict is invariant under replacing it by any value —
so validation has no maximum-capital gate at all, deterministic or
otherwise. -/
theorem validate_ignores_required_capital (self : ArbitrageFinder)
    (env : AIEnv) (opportunity : ArbitrageOpportunity) (capital : ℚ) :
    validate_opportunity self env
        { opportunity with required_capital := capital }
      = validate_opportunity self env opportunity := rfl

/-- C8 counterexample: with the scanner's sample opportunity and a
sentiment completion that parses to −5, `_calculate_risk_score`
returns a negative score, outside the advertised [0, 1]. -/
theorem risk_score_below_zero_counterexample :
    calculate_risk_score out_of_range_ai_env "detailed analysis"
        sample_opportunity < 0 := by
  norm_num [calculate_risk_score, analyze_text_sentiment,
    out_of_range_ai_env, sample_opportunity, min_def, max_def]

/-- C8 amended: the risk score never exceeds 1, and it also stays
non-negative — hence in [0, 1] — whenever the opportunity's profit
percentage is non-negative and every parsed sentiment score is at
least −1, the range the sentiment prompt requests. -/
theorem calculate_risk_score_bounds (env : AIEnv) (analysis : String)
    (opportunity_data : ArbitrageOpportunity) :
    calculate_risk_score env analysis opportunity_data ≤ 1 ∧
    (0 ≤ opportunity_data.profit_percentage →
      (∀ s, env.sentiment_response = .ok s → -1 ≤ s) →
      0 ≤ calculate_risk_score env analysis opportunity_data) := by
  constructor
  · exact min_le_right _ _
  · intro hp hs
    have hprofit :
        (0 : ℚ) ≤ min (opportunity_data.profit_percentage / 10) (3 / 10) :=
      le_min (div_nonneg hp (by norm_num)) (by norm_num)
    have hcap : (0 : ℚ)
        ≤ max 0 (1 / 5 - opportunity_data.required_capital / 100000) :=
      le_max_left _ _
    have hsent : 0 ≤ analyze_text_sentiment env analysis := by
      unfold analyze_text_sentiment
      cases hres : env.sentiment_response with
      | ok s => have := hs s hres; linarith
      | error msg => norm_num
    unfold calculate_risk_score
    exact le_min (by linarith) (by norm_num)

/-- Keys of the kept price entries over any (chain, dex) list: exactly
the keys of the pairs whose fetch returned. -/
theorem price_keys_of_successes
    (get_dex_price : String → String × String → Except String ℚ)
    (token_pair : String × String) :
    ∀ l : List (String × String),
      ((l.filterMap fun cd =>
          match get_dex_price cd.2 token_pair with
          | .ok p => some (cd.1 ++ "_" ++ cd.2, p)
          | .error _ => none).map Prod.fst)
        = (l.filter fun cd =>
            (get_dex_price cd.2 token_pair).isOk).map
            fun cd => cd.1 ++ "_" ++ cd.2
  | [] => by simp
  | cd :: tl => by
      cases h : get_dex_price cd.2 token_pair with
      | ok p =>
          simp [List.filterMap_cons, List.filter_cons, h, Except.isOk,
            Except.toBool, price_keys_of_successes get_dex_price token_pair tl]
      | error msg =>
          simp [List.filterMap_cons, List.filter_cons, h, Except.isOk,
            Except.toBool, price_keys_of_successes get_dex_price token_pair tl]

/-- C9: a scan cycle's price map has exactly one entry per (chain, dex)
pair whose fetch returned — its key list is the key list of the
successful pairs in scan order, so an erroring source is excluded from
the cycle without suppressing the others — and every successful fetch
contributes its price entry. -/
theorem fetch_all_prices_excludes_only_failures
    (get_dex_price : String → String × String → Except String ℚ)
    (token_pair : String × String) :
    ((fetch_all_prices get_dex_price token_pair).map Prod.fst
      = (all_chain_dex_pairs.filter fun cd =>
          (get_dex_price cd.2 token_pair).isOk).map
          fun cd => cd.1 ++ "_" ++ cd.2) ∧
    (∀ chain dex p, (chain, dex) ∈ all_chain_dex_pairs →
      get_dex_price dex token_pair = .ok p →
      (chain ++ "_" ++ dex, p)
        ∈ fetch_all_prices get_dex_price token_pair) := by
  constructor
  · exact price_keys_of_successes get_dex_price token_pair
      all_chain_dex_pairs
  · intro chain dex p hmem hok
    unfold fetch_all_prices
    refine List.mem_filterMap.mpr ⟨(chain, dex), hmem, ?_⟩
    simp [hok]

/-- C2 counterexample: submitting `execute_opportunity` twice for the
same opportunity (hence the same fingerprint) starting from an empty
active list yields two active Trades for it, not one Trade plus a
duplicate-in-flight rejection. -/
theorem duplicate_submission_two_trades :
    ((execute_opportunity (execute_opportunity [] sample_opportunity)
        sample_opportunity).count sample_opportunity = 2) ∧
    ¬ ((execute_opportunity (execute_opportunity [] sample_opportunity)
        sample_opportunity).count sample_opportunity = 1) := by
  have htwo : execute_opportunity (execute_opportunity [] sample_opportunity)
      sample_opportunity = [sample_opportunity, sample_opportunity] := rfl
  rw [htwo]
  simp [List.count_cons]

/-- C2 amended: every `execute_opportunity` submission unconditionally
appends one more Trade for its opportunity to the active list — the
dashboard has no fingerprint guard and no duplicate-in-flight
rejection, so a second submission while the first is in flight yields
a second Trade. -/
theorem execute_opportunity_always_appends
    (active_trades : List ArbitrageOpportunity)
    (opportunity : ArbitrageOpportunity) :
    (execute_opportunity active_trades opportunity).count opportunity
        = active_trades.count opportunity + 1 ∧
    (execute_opportunity active_trades opportunity).length
        = active_trades.length + 1 := by
  constructor
  · simp [execute_opportunity]
  · simp [execute_opportunity]
